import Mathlib

/-
Verification of the D&D mechanics engine (dnd_server.py): a shallow
embedding of the dice roller, combat resolver, character calculator,
character store and the server's store-handle lifecycle, with theorems
settling the specification's claims about them.

Python strings are modelled as `List Char`; Python exceptions as
`Except (List Char)` carrying the message; the global `random` generator
as an explicit stream `Nat → Nat` of non-negative draws that is consumed
left to right and threaded through every call, so that
`random.randint(lo, hi)` reads one stream element and returns a value in
`[lo, hi]`.
-/

namespace DnD

/-- The random source: an infinite stream of natural numbers.  Consuming a
draw advances the stream by one position. -/
abbrev Gen := Nat → Nat

/-- Model of `random.randint(lo, hi)`: returns an integer uniformly drawn
from `[lo, hi]` (here: `lo` plus the next stream element reduced modulo the
width of the interval, which realises exactly the contract "an integer in
`[lo, hi]`"), together with the advanced stream. -/
def randint (lo hi : Int) (g : Gen) : Int × Gen :=
  (lo + (g 0 : Int) % (hi - lo + 1), fun n => g (n + 1))

/-- Model of the whitespace stripped by Python's `int(str)` conversion
(`str.strip()` on the ASCII whitespace characters). -/
def isSpace (c : Char) : Bool :=
  c = ' ' || c = '\t' || c = '\n' || c = '\x0b' || c = '\x0c' || c = '\r'

/-- Strip leading and trailing whitespace, as `int(str)` does before
parsing. -/
def pyStrip (s : List Char) : List Char :=
  ((s.dropWhile isSpace).reverse.dropWhile isSpace).reverse

/-- Numeric value of a list of decimal digit characters, most significant
first. -/
def digitsVal (ds : List Char) : Nat :=
  ds.foldl (fun a c => 10 * a + (c.toNat - 48)) 0

/-- Parse a non-empty all-digit string to its value; `none` otherwise. -/
def parseDigits (ds : List Char) : Option Nat :=
  if ds ≠ [] ∧ ds.all Char.isDigit then some (digitsVal ds) else none

/-- Model of the Python builtin `int(str)` on decimal strings: strips
surrounding whitespace, accepts one optional leading sign followed by a
non-empty run of ASCII digits, and fails (raises `ValueError`, here `none`)
on anything else.  Python's digit-grouping underscores are not modelled;
no input in this development contains one. -/
def pyInt (s : List Char) : Option Int :=
  match pyStrip s with
  | [] => none
  | c :: rest =>
    if c = '-' then (parseDigits rest).map (fun n => -(n : Int))
    else if c = '+' then (parseDigits rest).map (fun n => (n : Int))
    else (parseDigits (c :: rest)).map (fun n => (n : Int))

/-- Model of Python `str.lower()` (only ASCII letters occur in dice
input). -/
def pyLower (s : List Char) : List Char := s.map Char.toLower

/-- Model of Python `str.split(sep)` for a one-character separator:
splits on every occurrence, keeping empty pieces, and yields `[""]` on the
empty string. -/
def pySplit (sep : Char) : List Char → List (List Char)
  | [] => [[]]
  | c :: cs =>
    if c = sep then [] :: pySplit sep cs
    else
      match pySplit sep cs with
      | [] => [[c]]
      | p :: ps => (c :: p) :: ps

/-- `DiceRoll` result value object (dnd_server.py lines 44-49). -/
structure DiceRoll where
  dice_notation : List Char
  individual_rolls : List Int
  total : Int
  modifier : Int
deriving DecidableEq

/-- Message of the `ValueError` raised for a pattern that does not split
into exactly two parts (dnd_server.py line 166). -/
def invalidNotationError : List Char :=
  "Invalid dice notation. Use format like '1d20' or '2d6'".data

/-- Stands for the message of the `ValueError` Python's `int()` raises on a
non-numeric part (its exact text interpolates the offending input and is
abstracted to a fixed representative here). -/
def intLiteralError : List Char :=
  "invalid literal for int() with base 10".data

/-- Message of the `ValueError` for a non-positive dice count or side count
(dnd_server.py line 172). -/
def nonPositiveError : List Char :=
  "Number of dice and sides must be positive".data

/-- Message of the `ValueError` for more than 20 dice (line 175). -/
def tooManyDiceError : List Char :=
  "Maximum 20 dice per roll".data

/-- The wrapper `roll_dice` applies to every `ValueError` it catches
(dnd_server.py line 189): `f"Dice rolling error: {str(e)}"`. -/
def diceError (e : List Char) : List Char :=
  "Dice rolling error: ".data ++ e

/-- The parsing prefix of `roll_dice` (lines 164-169): lower-case the
input, split on `'d'`, and convert both parts with `int()`. -/
def parse_notation (dn : List Char) : Except (List Char) (Int × Int) :=
  match pySplit 'd' (pyLower dn) with
  | [p0, p1] =>
    match pyInt p0, pyInt p1 with
    | some num_dice, some num_sides => .ok (num_dice, num_sides)
    | _, _ => .error intLiteralError
  | _ => .error invalidNotationError

/-- Draw `count` dice of `sides` sides, threading the stream, in the order
of the comprehension `[random.randint(1, num_sides) for _ in range(n)]`. -/
def rollList : Nat → Int → Gen → List Int × Gen
  | 0, _, g => ([], g)
  | count + 1, sides, g =>
    let (v, g1) := randint 1 sides g
    let (vs, g2) := rollList count sides g1
    (v :: vs, g2)

/-- `roll_dice(dice_notation, modifier=0)` (dnd_server.py lines 150-189):
parse the notation, validate the bounds, draw the dice, and return the
`DiceRoll`; every `ValueError` is re-raised with the "Dice rolling error"
message prefix. -/
def roll_dice (dn : List Char) (modifier : Int) (g : Gen) :
    Except (List Char) (DiceRoll × Gen) :=
  match parse_notation dn with
  | .error e => .error (diceError e)
  | .ok (num_dice, num_sides) =>
    if num_dice ≤ 0 ∨ num_sides ≤ 0 then .error (diceError nonPositiveError)
    else if 20 < num_dice then .error (diceError tooManyDiceError)
    else
      let (rolls, g1) := rollList num_dice.toNat num_sides g
      .ok ({ dice_notation := dn
             individual_rolls := rolls
             total := rolls.sum + modifier
             modifier := modifier }, g1)

/-- Decimal digits of a natural number, most significant first (the way
Python's `str`/f-string formats a non-negative integer). -/
def natRepr (n : Nat) : List Char :=
  if h : n < 10 then [Char.ofNat (48 + n)]
  else natRepr (n / 10) ++ [Char.ofNat (48 + n % 10)]
decreasing_by exact Nat.div_lt_self (by omega) (by omega)

/-- Python `f"{i}"` for an integer: a minus sign for negatives, then the
digits. -/
def intRepr (i : Int) : List Char :=
  if i < 0 then '-' :: natRepr i.natAbs else natRepr i.toNat

/-- Python `f"{i:+d}"`: like `intRepr` but with an explicit `+` on
non-negative values. -/
def plusRepr (i : Int) : List Char :=
  if i < 0 then intRepr i else '+' :: natRepr i.toNat

/-- `AttackResult` value object (dnd_server.py lines 35-41). -/
structure AttackResult where
  hit : Bool
  attack_roll : Int
  damage : Option Int
  critical : Bool
  description : List Char
deriving DecidableEq

/-- The shared `"Attack roll: {d20} + {bonus} = {total} vs AC {ac}"`
fragment of the attack descriptions. -/
def attackLine (d20 bonus total ac : Int) : List Char :=
  "Attack roll: ".data ++ intRepr d20 ++ " + ".data ++ intRepr bonus ++
    " = ".data ++ intRepr total ++ " vs AC ".data ++ intRepr ac

/-- `attack_roll(attacker_bonus, target_ac, damage_dice="1d8",
damage_bonus=0)` (dnd_server.py lines 192-249): draw a d20, flag natural
20 / natural 1, test `hit = attack_total >= target_ac or critical`, and on
a hit that is not a critical miss roll damage (doubling only the dice on a
critical).  A `ValueError` escaping the inner `roll_dice` calls
propagates. -/
def attack_roll (attacker_bonus target_ac : Int) (damage_dice : List Char)
    (damage_bonus : Int) (g : Gen) : Except (List Char) (AttackResult × Gen) :=
  let (attack_d20, g1) := randint 1 20 g
  let attack_total := attack_d20 + attacker_bonus
  let critical : Bool := decide (attack_d20 = 20)
  let critical_miss : Bool := decide (attack_d20 = 1)
  let hit : Bool := decide (attack_total ≥ target_ac) || critical
  if hit && !critical_miss then
    match roll_dice damage_dice damage_bonus g1 with
    | .error e => .error e
    | .ok (damage_roll, g2) =>
      if critical then
        match roll_dice damage_dice 0 g2 with
        | .error e => .error e
        | .ok (crit_damage_roll, g3) =>
          let damage := damage_roll.total + crit_damage_roll.total
          .ok ({ hit := hit
                 attack_roll := attack_total
                 damage := some damage
                 critical := critical
                 description := "CRITICAL HIT! ".data ++
                   attackLine attack_d20 attacker_bonus attack_total target_ac ++
                   ". Damage: ".data ++ intRepr damage }, g3)
      else
        .ok ({ hit := hit
               attack_roll := attack_total
               damage := some damage_roll.total
               critical := critical
               description := "Hit! ".data ++
                 attackLine attack_d20 attacker_bonus attack_total target_ac ++
                 ". Damage: ".data ++ intRepr damage_roll.total }, g2)
  else
    if critical_miss then
      .ok ({ hit := hit
             attack_roll := attack_total
             damage := none
             critical := critical
             description := "Critical Miss! Rolled natural 1.".data }, g1)
    else
      .ok ({ hit := hit
             attack_roll := attack_total
             damage := none
             critical := critical
             description := "Miss! ".data ++
               attackLine attack_d20 attacker_bonus attack_total target_ac ++
               ".".data }, g1)

/-- `calculate_modifier(ability_score)` (dnd_server.py lines 252-263):
Python's floor division `(ability_score - 10) // 2` (Lean's `Int` `/` is
Euclidean division, which agrees with floor division for the positive
divisor 2). -/
def calculate_modifier (ability_score : Int) : Int :=
  (ability_score - 10) / 2

/-- `Character` data model (dnd_server.py lines 18-32); `id` is absent
until first persisted. -/
structure Character where
  id : Option Int
  name : List Char
  character_class : List Char
  level : Int
  armor_class : Int
  hit_points : Int
  current_hp : Int
  strength : Int
  dexterity : Int
  constitution : Int
  intelligence : Int
  wisdom : Int
  charisma : Int
deriving DecidableEq

/-- Contents of the sqlite `characters` table: its rows, plus the next
value of the `AUTOINCREMENT` primary-key counter (starting at 1, never
reused). -/
structure Table where
  rows : List Character
  next_id : Int
deriving DecidableEq

/-- `Database.save_character` (dnd_server.py lines 87-100): INSERT the
character's fields as a fresh row and return `cursor.lastrowid`, the
auto-assigned id. -/
def save_character (t : Table) (character : Character) : Int × Table :=
  (t.next_id,
   { rows := t.rows ++ [{ character with id := some t.next_id }]
     next_id := t.next_id + 1 })

/-- `Database.get_character` (dnd_server.py lines 102-114): SELECT the row
with the given id and `fetchone()`; `None` when no row matches. -/
def get_character (t : Table) (character_id : Int) : Option Character :=
  t.rows.find? (fun r => decide (r.id = some character_id))

/-- Message of the `ValueError` raised by `get_character_info` for an
unknown id (dnd_server.py line 344). -/
def notFoundMessage (character_id : Int) : List Char :=
  "Character with ID ".data ++ intRepr character_id ++ " not found".data

/-- An open sqlite connection object: the identity of the `Database()`
instance (fresh per construction) and the file path it connected to. -/
structure Database where
  instance_id : Nat
  db_path : List Char
deriving DecidableEq

/-- The default path every `Database()` in dnd_server.py connects to. -/
def defaultPath : List Char := "dnd_characters.db".data

/-- Look a file's table up by path in the modelled file system. -/
def getTable : List (List Char × Table) → List Char → Option Table
  | [], _ => none
  | (q, t) :: rest, p => if q = p then some t else getTable rest p

/-- Write a file's table back by path (creating the file if absent). -/
def setTable : List (List Char × Table) → List Char → Table → List (List Char × Table)
  | [], p, t => [(p, t)]
  | (q, u) :: rest, p, t =>
    if q = p then (p, t) :: rest else (q, u) :: setTable rest p t

/-- Process state: the counter minting fresh `Database()` instances, the
file system holding one `characters` table per database file, the handle
stored in the lifespan context (`AppContext.db`), and the module-global
`_global_db` used by resources. -/
structure ProcState where
  next_instance : Nat
  files : List (List Char × Table)
  lifespan_db : Option Database
  global_db : Option Database
deriving DecidableEq

/-- The state of a freshly started process: no connections, no files. -/
def initState : ProcState :=
  { next_instance := 0, files := [], lifespan_db := none, global_db := none }

/-- `Database().connect()` (dnd_server.py lines 54-61): construct a fresh
instance on the default path and run the idempotent
`CREATE TABLE IF NOT EXISTS` (an absent file gains an empty table with the
id counter at 1; an existing one is untouched). -/
def connectDatabase (st : ProcState) : Database × ProcState :=
  let db : Database := { instance_id := st.next_instance, db_path := defaultPath }
  let files :=
    match getTable st.files defaultPath with
    | none => setTable st.files defaultPath { rows := [], next_id := 1 }
    | some _ => st.files
  (db, { st with next_instance := st.next_instance + 1, files := files })

/-- Startup half of `app_lifespan` (dnd_server.py lines 135-142): connect
a database and store the handle in the lifespan context. -/
def app_lifespan_startup (st : ProcState) : ProcState :=
  let (db, st1) := connectDatabase st
  { st1 with lifespan_db := some db }

/-- `get_db` (dnd_server.py lines 352-357): return the module-global
`_global_db`, lazily connecting a new `Database()` the first time. -/
def get_db (st : ProcState) : Database × ProcState :=
  match st.global_db with
  | some db => (db, st)
  | none =>
    let (db, st1) := connectDatabase st
    (db, { st1 with global_db := some db })

/-- Save a character through a connection handle: update the table of the
file the handle is connected to. -/
def db_save_character (st : ProcState) (db : Database) (character : Character) :
    Int × ProcState :=
  let t := (getTable st.files db.db_path).getD { rows := [], next_id := 1 }
  let (character_id, t1) := save_character t character
  (character_id, { st with files := setTable st.files db.db_path t1 })

/-- Read a character through a connection handle: query the table of the
file the handle is connected to. -/
def db_get_character (st : ProcState) (db : Database) (character_id : Int) :
    Option Character :=
  match getTable st.files db.db_path with
  | none => none
  | some t => get_character t character_id

/-- `create_character` (dnd_server.py lines 266-326): derive hit points
and armor class from the scores, build the character, and save it through
the handle obtained from the lifespan context (`db` here), returning the
character with its assigned id. -/
def create_character (name character_class : List Char)
    (level strength dexterity constitution intelligence wisdom charisma : Int)
    (db : Database) (st : ProcState) : Character × ProcState :=
  let con_modifier := calculate_modifier constitution
  let hit_points := 10 + con_modifier + ((level - 1) * (6 + con_modifier))
  let dex_modifier := calculate_modifier dexterity
  let armor_class := 10 + dex_modifier
  let character : Character :=
    { id := none
      name := name
      character_class := character_class
      level := level
      armor_class := armor_class
      hit_points := hit_points
      current_hp := hit_points
      strength := strength
      dexterity := dexterity
      constitution := constitution
      intelligence := intelligence
      wisdom := wisdom
      charisma := charisma }
  let (character_id, st1) := db_save_character st db character
  ({ character with id := some character_id }, st1)

/-- `get_character_info` (dnd_server.py lines 329-346): fetch through the
lifespan-context handle and raise `ValueError` with the not-found message
when the store returned `None`. -/
def get_character_info (character_id : Int) (db : Database) (st : ProcState) :
    Except (List Char) Character :=
  match db_get_character st db character_id with
  | some character => .ok character
  | none => .error (notFoundMessage character_id)

/-- The body of the character-sheet f-string (dnd_server.py lines
371-385): leading newline, heading, ability scores with `:+d` modifiers,
combat stats, trailing newline. -/
def character_sheet_text (c : Character) : List Char :=
  "\n# ".data ++ c.name ++ " - Level ".data ++ intRepr c.level ++ " ".data ++
    c.character_class ++
  "\n\n## Ability Scores\n- Strength: ".data ++ intRepr c.strength ++
    " (".data ++ plusRepr (calculate_modifier c.strength) ++ ")".data ++
  "\n- Dexterity: ".data ++ intRepr c.dexterity ++
    " (".data ++ plusRepr (calculate_modifier c.dexterity) ++ ")".data ++
  "\n- Constitution: ".data ++ intRepr c.constitution ++
    " (".data ++ plusRepr (calculate_modifier c.constitution) ++ ")".data ++
  "\n- Intelligence: ".data ++ intRepr c.intelligence ++
    " (".data ++ plusRepr (calculate_modifier c.intelligence) ++ ")".data ++
  "\n- Wisdom: ".data ++ intRepr c.wisdom ++
    " (".data ++ plusRepr (calculate_modifier c.wisdom) ++ ")".data ++
  "\n- Charisma: ".data ++ intRepr c.charisma ++
    " (".data ++ plusRepr (calculate_modifier c.charisma) ++ ")".data ++
  "\n\n## Combat Stats\n- Armor Class: ".data ++ intRepr c.armor_class ++
  "\n- Hit Points: ".data ++ intRepr c.current_hp ++ "/".data ++
    intRepr c.hit_points ++ "\n".data

/-- `get_character_sheet` resource (dnd_server.py lines 360-387): inside a
`try` that catches `ValueError`, convert the id with `int()` (the only
statement that can raise `ValueError`), acquire the lazy global handle via
`get_db`, read the character, and render; the `except` arm returns the
"Invalid character ID" text, the absent-row branch the "not found" text —
every path returns an ordinary string. -/
def get_character_sheet (st : ProcState) (character_id : List Char) :
    List Char × ProcState :=
  match pyInt character_id with
  | none => ("Invalid character ID: ".data ++ character_id, st)
  | some char_id =>
    let (db, st1) := get_db st
    match db_get_character st1 db char_id with
    | none => ("Character ".data ++ character_id ++ " not found".data, st1)
    | some character => (character_sheet_text character, st1)

/- ------------------------------------------------------------------ -/
/- Helper lemmas                                                      -/
/- ------------------------------------------------------------------ -/

theorem isDigit_toNat {c : Char} (h : c.isDigit = true) :
    48 ≤ c.toNat ∧ c.toNat ≤ 57 := by
  simp [Char.isDigit, Char.le_def] at h
  exact ⟨h.1, h.2⟩

theorem digit_ne {c : Char} (h : c.isDigit = true) (k : Char)
    (hk : k.toNat < 48 ∨ 57 < k.toNat) : c ≠ k := by
  have h2 := isDigit_toNat h
  intro he
  subst he
  omega

theorem toLower_of_digit {c : Char} (h : c.isDigit = true) : c.toLower = c := by
  have h2 := isDigit_toNat h
  simp [Char.toLower]
  omega

theorem digit_ne_d {c : Char} (h : c.isDigit = true) : c ≠ 'd' :=
  digit_ne h 'd' (by decide)

theorem digit_not_space {c : Char} (h : c.isDigit = true) : isSpace c = false := by
  simp [isSpace]
  exact ⟨⟨⟨⟨⟨digit_ne h ' ' (by decide), digit_ne h '\t' (by decide)⟩,
    digit_ne h '\n' (by decide)⟩, digit_ne h '\x0b' (by decide)⟩,
    digit_ne h '\x0c' (by decide)⟩, digit_ne h '\x0d' (by decide)⟩

theorem pySplit_no_sep (sep : Char) (l : List Char) (h : ∀ c ∈ l, c ≠ sep) :
    pySplit sep l = [l] := by
  induction l with
  | nil => rfl
  | cons c cs ih =>
    have hc : c ≠ sep := h c (List.mem_cons_self c cs)
    have := ih (fun x hx => h x (List.mem_cons_of_mem c hx))
    simp [pySplit, hc, this]

theorem pySplit_once (sep : Char) (a b : List Char)
    (ha : ∀ c ∈ a, c ≠ sep) (hb : ∀ c ∈ b, c ≠ sep) :
    pySplit sep (a ++ sep :: b) = [a, b] := by
  induction a with
  | nil => simp [pySplit, pySplit_no_sep sep b hb]
  | cons c cs ih =>
    have hc : c ≠ sep := ha c (List.mem_cons_self c cs)
    have := ih (fun x hx => ha x (List.mem_cons_of_mem c hx))
    simp [pySplit, hc, this]

theorem dropWhile_all_false {p : Char → Bool} {l : List Char}
    (h : ∀ c ∈ l, p c = false) : l.dropWhile p = l := by
  cases l with
  | nil => rfl
  | cons c cs => simp [List.dropWhile, h c (List.mem_cons_self c cs)]

theorem pyStrip_digits {l : List Char} (h : l.all Char.isDigit = true) :
    pyStrip l = l := by
  have hns : ∀ c ∈ l, isSpace c = false := by
    intro c hc
    refine digit_not_space ?_
    simp [List.all_eq_true] at h
    exact h c hc
  rw [pyStrip, dropWhile_all_false hns,
      dropWhile_all_false (fun c hc => hns c (List.mem_reverse.mp hc)),
      List.reverse_reverse]

theorem pyInt_digits {l : List Char} (hne : l ≠ []) (h : l.all Char.isDigit = true) :
    pyInt l = some (digitsVal l) := by
  rw [pyInt, pyStrip_digits h]
  cases l with
  | nil => exact absurd rfl hne
  | cons c cs =>
    have hcd : c.isDigit = true := by
      simp [List.all_eq_true] at h
      exact h.1
    have h1 : c ≠ '-' := digit_ne hcd '-' (by decide)
    have h2 : c ≠ '+' := digit_ne hcd '+' (by decide)
    simp only [pyInt, h1, h2, if_false, parseDigits]
    simp [h]

theorem pyLower_digits_d (a b : List Char)
    (ha : a.all Char.isDigit = true) (hb : b.all Char.isDigit = true) :
    pyLower (a ++ 'd' :: b) = a ++ 'd' :: b := by
  simp only [pyLower, List.map_append, List.map_cons]
  simp [List.all_eq_true] at ha hb
  rw [show Char.toLower 'd' = 'd' from by decide]
  congr 1
  · exact List.map_congr_left (fun c hc => toLower_of_digit (ha c hc)) |>.trans
      (List.map_id a) |>.symm ▸ rfl
  · congr 1
    exact List.map_congr_left (fun c hc => toLower_of_digit (hb c hc)) |>.trans
      (List.map_id b) |>.symm ▸ rfl

theorem randint_bounds (lo hi : Int) (g : Gen) (h : lo ≤ hi) :
    lo ≤ (randint lo hi g).1 ∧ (randint lo hi g).1 ≤ hi := by
  have hpos : 0 < hi - lo + 1 := by omega
  have h0 : (0 : Int) ≤ (g 0 : Int) % (hi - lo + 1) :=
    Int.emod_nonneg _ (by omega)
  have h1 : (g 0 : Int) % (hi - lo + 1) < hi - lo + 1 :=
    Int.emod_lt_of_pos _ hpos
  simp only [randint]
  omega

theorem rollList_spec (n : Nat) (s : Int) (g : Gen) (hs : 1 ≤ s) :
    (rollList n s g).1.length = n ∧ ∀ v ∈ (rollList n s g).1, 1 ≤ v ∧ v ≤ s := by
  induction n generalizing g with
  | zero => simp [rollList]
  | succ k ih =>
    have hb := randint_bounds 1 s g hs
    have := ih (randint 1 s g).2
    simp only [rollList]
    constructor
    · simp [this.1]
    · intro v hv
      rcases List.mem_cons.mp hv with h | h
      · exact h ▸ hb
      · exact this.2 v h

theorem parse_notation_digits (a b : List Char)
    (hane : a ≠ []) (hada : a.all Char.isDigit = true)
    (hbne : b ≠ []) (hbda : b.all Char.isDigit = true) :
    parse_notation (a ++ 'd' :: b) =
      .ok ((digitsVal a : Int), (digitsVal b : Int)) := by
  have hna : ∀ c ∈ a, c ≠ 'd' := by
    simp [List.all_eq_true] at hada
    intro c hc
    exact digit_ne_d (hada c hc)
  have hnb : ∀ c ∈ b, c ≠ 'd' := by
    simp [List.all_eq_true] at hbda
    intro c hc
    exact digit_ne_d (hbda c hc)
  rw [ parse_notation, pyLower_digits_d a b hada hbda, pySplit_once 'd' a b hna hnb]
  simp [pyInt_digits hane hada, pyInt_digits hbne hbda]

theorem roll_dice_ok_shape {dn : List Char} {m : Int} {g : Gen} {dr : DiceRoll}
    {g2 : Gen} (h : roll_dice dn m g = .ok (dr, g2)) (m' : Int) (g' : Gen) :
    ∃ r gr, roll_dice dn m' g' = .ok (r, gr) := by
  rw [roll_dice] at h ⊢
  cases hp : parse_notation dn with
  | error e =>
    rw [hp] at h
    exact absurd h (by simp)
  | ok p =>
    obtain ⟨n, s⟩ := p
    rw [hp] at h
    dsimp only at h ⊢
    by_cases h1 : n ≤ 0 ∨ s ≤ 0
    · rw [if_pos h1] at h
      exact absurd h (by simp)
    · rw [if_neg h1] at h ⊢
      by_cases h2 : 20 < n
      · rw [if_pos h2] at h
        exact absurd h (by simp)
      · rw [if_neg h2]
        exact ⟨_, _, rfl⟩

/- ------------------------------------------------------------------ -/
/- Claim theorems                                                     -/
/- ------------------------------------------------------------------ -/

/-- C1: the claim says a natural 1 never produces a hit outcome, but the
code computes `hit = attack_total >= target_ac or critical` without
excluding the natural 1.  Evaluated at attacker bonus 10 versus AC 5 with
a stream forcing the d20 to 1: the returned `AttackResult` has
`hit = true` while its own description reads "Critical Miss! Rolled
natural 1." and no damage was dealt — the hit flag contradicts both the
claim and the function's other outputs. -/
theorem attack_roll_natural_one_returns_hit :
    (randint 1 20 (fun _ => 0)).1 = 1 ∧
    (1 : Int) + 10 ≥ 5 ∧
    (attack_roll 10 5 "1d8".data 0 (fun _ => 0)).toOption.map
      (fun p => (p.1.hit, p.1.damage, p.1.critical, p.1.description)) =
    some (true, none, false, "Critical Miss! Rolled natural 1.".data) :=
  ⟨rfl, by norm_num, rfl⟩

/-- C2: for every notation of the form "NdS" (a non-empty digit string
`a` of value between 1 and 20, the letter d, a non-empty digit string `b`
of positive value) and every modifier and stream, `roll_dice` succeeds
with exactly N individual rolls, each in `[1, S]`, and total equal to
their sum plus the modifier. -/
theorem roll_dice_valid_notation_spec (a b : List Char) (m : Int) (g : Gen)
    (hane : a ≠ []) (hada : a.all Char.isDigit = true)
    (hbne : b ≠ []) (hbda : b.all Char.isDigit = true)
    (hn1 : 1 ≤ digitsVal a) (hn20 : digitsVal a ≤ 20) (hs1 : 1 ≤ digitsVal b) :
    ∃ r g2, roll_dice (a ++ 'd' :: b) m g = .ok (r, g2) ∧
      r.individual_rolls.length = digitsVal a ∧
      (∀ v ∈ r.individual_rolls, 1 ≤ v ∧ v ≤ (digitsVal b : Int)) ∧
      r.total = r.individual_rolls.sum + m := by
  rw [roll_dice, parse_notation_digits a b hane hada hbne hbda]
  dsimp only
  have hc1 : ¬((digitsVal a : Int) ≤ 0 ∨ (digitsVal b : Int) ≤ 0) := by omega
  have hc2 : ¬(20 < (digitsVal a : Int)) := by omega
  rw [if_neg hc1, if_neg hc2]
  have hspec := rollList_spec ((digitsVal a : Int)).toNat ((digitsVal b : Int)) g
    (by exact_mod_cast hs1)
  rcases hr : rollList ((digitsVal a : Int)).toNat ((digitsVal b : Int)) g with ⟨rolls, g1⟩
  rw [hr] at hspec
  refine ⟨_, g1, rfl, ?_, ?_, rfl⟩
  · simpa using hspec.1
  · exact hspec.2

/-- C2 witness: "2d6" with modifier 3 rolls two dice in `[1, 6]`. -/
theorem roll_dice_valid_notation_spec_witness :
    ((['2'] : List Char) ≠ [] ∧ (['2'] : List Char).all Char.isDigit = true ∧
      1 ≤ digitsVal ['2'] ∧ digitsVal ['2'] ≤ 20 ∧ 1 ≤ digitsVal ['6']) ∧
    ∃ r g2, roll_dice (['2'] ++ 'd' :: ['6']) 3 (fun _ => 0) = .ok (r, g2) ∧
      r.individual_rolls.length = digitsVal ['2'] ∧
      (∀ v ∈ r.individual_rolls, 1 ≤ v ∧ v ≤ (digitsVal ['6'] : Int)) ∧
      r.total = r.individual_rolls.sum + 3 :=
  ⟨⟨by decide, by decide, by decide, by decide, by decide⟩,
   roll_dice_valid_notation_spec ['2'] ['6'] 3 (fun _ => 0) (by decide) (by decide)
     (by decide) (by decide) (by decide) (by decide) (by decide)⟩

/-- C3: `roll_dice` fails with a validation error on each of "0d6",
"2d0", "21d6", "d6", "2d" and "abc"; in general it fails whenever the
input does not split on d into exactly two `int()`-parsable parts, and
whenever the parsed pair has `N ≤ 0`, `S ≤ 0` or `N > 20`. -/
theorem roll_dice_rejects_malformed (g : Gen) (m : Int) :
    (∃ e, roll_dice "0d6".data m g = .error e) ∧
    (∃ e, roll_dice "2d0".data m g = .error e) ∧
    (∃ e, roll_dice "21d6".data m g = .error e) ∧
    (∃ e, roll_dice "d6".data m g = .error e) ∧
    (∃ e, roll_dice "2d".data m g = .error e) ∧
    (∃ e, roll_dice "abc".data m g = .error e) ∧
    (∀ dn e, parse_notation dn = .error e →
      roll_dice dn m g = .error (diceError e)) ∧
    (∀ dn n s, parse_notation dn = .ok (n, s) → n ≤ 0 ∨ s ≤ 0 ∨ 20 < n →
      ∃ e, roll_dice dn m g = .error e) := by
  refine ⟨⟨_, rfl⟩, ⟨_, rfl⟩, ⟨_, rfl⟩, ⟨_, rfl⟩, ⟨_, rfl⟩, ⟨_, rfl⟩, ?_, ?_⟩
  · intro dn e h
    rw [roll_dice, h]
  · intro dn n s h hbad
    rw [roll_dice, h]
    dsimp only
    split_ifs with h1 h2
    · exact ⟨_, rfl⟩
    · exact ⟨_, rfl⟩
    · omega

/-- C3 witness: the general rejection clauses applied to "d6" (a part
`int()` cannot parse) and to "0d6" (a parsed pair with `N = 0`). -/
theorem roll_dice_rejects_malformed_witness :
    roll_dice "d6".data 0 (fun _ => 0) = .error (diceError intLiteralError) ∧
    ∃ e, roll_dice "0d6".data 0 (fun _ => 0) = .error e :=
  ⟨(roll_dice_rejects_malformed (fun _ => 0) 0).2.2.2.2.2.2.1 "d6".data
      intLiteralError rfl,
   (roll_dice_rejects_malformed (fun _ => 0) 0).2.2.2.2.2.2.2 "0d6".data 0 6 rfl
      (by norm_num)⟩

/-- C4: `calculate_modifier` is the mathematical floor of
`(score - 10) / 2` (stated both against the rational floor and against
integer floor division), with the spec's four sample values. -/
theorem calculate_modifier_is_floor (score : Int) :
    calculate_modifier score = ⌊((score : ℚ) - 10) / 2⌋ ∧
    calculate_modifier score = Int.fdiv (score - 10) 2 ∧
    calculate_modifier 10 = 0 ∧ calculate_modifier 9 = -1 ∧
    calculate_modifier 20 = 5 ∧ calculate_modifier 3 = -4 := by
  refine ⟨?_, ?_, by decide, by decide, by decide, by decide⟩
  · have h1 : ((score : ℚ) - 10) / 2 = ((score - 10 : ℤ) : ℚ) / ((2 : ℕ) : ℚ) := by
      push_cast
      ring
    rw [calculate_modifier, h1, Rat.floor_intCast_div_natCast]
    norm_num
  · rw [calculate_modifier, Int.fdiv_eq_ediv _ (by norm_num)]

/-- C5: whenever the d20 stream element forces a natural 20, the attack
hits critically for every attacker bonus and target AC, and the damage is
the total of the damage roll with the damage bonus plus a second roll of
the same dice with zero bonus. -/
theorem attack_roll_natural_twenty_crit
    (attacker_bonus target_ac damage_bonus : Int) (damage_dice : List Char)
    (g : Gen) (dr : DiceRoll) (g2 : Gen)
    (h20 : g 0 % 20 = 19)
    (hroll : roll_dice damage_dice damage_bonus (fun n => g (n + 1)) = .ok (dr, g2)) :
    ∃ cr g3, roll_dice damage_dice 0 g2 = .ok (cr, g3) ∧
      ∃ res, attack_roll attacker_bonus target_ac damage_dice damage_bonus g =
          .ok (res, g3) ∧
        res.hit = true ∧ res.critical = true ∧
        res.damage = some (dr.total + cr.total) := by
  obtain ⟨cr, g3, hcr⟩ := roll_dice_ok_shape hroll 0 g2
  refine ⟨cr, g3, hcr, ?_⟩
  rw [attack_roll]
  dsimp only [randint]
  have hd : (1 : Int) + (g 0 : Int) % (20 - 1 + 1) = 20 := by omega
  rw [hd]
  norm_num
  rw [hroll]
  dsimp only
  rw [hcr]
  exact ⟨_, rfl, rfl, rfl, rfl⟩

/-- C5 witness: a constant-19 stream makes the d20 a natural 20 against
AC 25 with bonus 0; damage is the sum of the two "1d8" roll totals. -/
theorem attack_roll_natural_twenty_crit_witness :
    ((fun _ => 19 : Gen) 0 % 20 = 19) ∧
    ∃ dr g2, roll_dice "1d8".data 2 (fun n => (fun _ => 19 : Gen) (n + 1)) =
        .ok (dr, g2) ∧
      ∃ cr g3, roll_dice "1d8".data 0 g2 = .ok (cr, g3) ∧
        ∃ res, attack_roll 0 25 "1d8".data 2 (fun _ => 19) = .ok (res, g3) ∧
          res.hit = true ∧ res.critical = true ∧
          res.damage = some (dr.total + cr.total) := by
  refine ⟨rfl, _, _, rfl, ?_⟩
  exact attack_roll_natural_twenty_crit 0 25 2 "1d8".data (fun _ => 19) _ _ rfl rfl

/-- C6: `create_character` derives `hitPoints = 10 + conMod +
(level - 1) * (6 + conMod)` and `armorClass = 10 + dexMod` and initializes
`currentHP = hitPoints`; constitution 14 gives 12 hit points at level 1
and 28 at level 3. -/
theorem create_character_derived_stats (name character_class : List Char)
    (level strength dexterity constitution intelligence wisdom charisma : Int)
    (db : Database) (st : ProcState) :
    (∃ c st1, create_character name character_class level strength dexterity
        constitution intelligence wisdom charisma db st = (c, st1) ∧
      c.hit_points = 10 + calculate_modifier constitution +
        (level - 1) * (6 + calculate_modifier constitution) ∧
      c.armor_class = 10 + calculate_modifier dexterity ∧
      c.current_hp = c.hit_points) ∧
    (∃ c st1, create_character name character_class 1 strength dexterity
        14 intelligence wisdom charisma db st = (c, st1) ∧
      c.hit_points = 12 ∧ c.current_hp = 12) ∧
    (∃ c st1, create_character name character_class 3 strength dexterity
        14 intelligence wisdom charisma db st = (c, st1) ∧
      c.hit_points = 28 ∧ c.current_hp = 28) := by
  refine ⟨⟨_, _, rfl, rfl, rfl, rfl⟩, ⟨_, _, rfl, ?_, ?_⟩, ⟨_, _, rfl, ?_, ?_⟩⟩ <;>
    norm_num [create_character, calculate_modifier]

/-- C7 counterexample: the claim says the returned `dice_notation` field
is the normalized lowercase form, but `roll_dice("2D6")` succeeds and
echoes "2D6" unchanged, which differs from the lowercase normalization
"2d6". -/
theorem roll_dice_keeps_input_case_counterexample :
    (roll_dice "2D6".data 0 (fun _ => 0)).toOption.map
      (fun p => DiceRoll.dice_notation p.1) = some "2D6".data ∧
    "2D6".data ≠ "2d6".data ∧
    pyLower "2D6".data = "2d6".data :=
  ⟨rfl, by decide, by decide⟩

/-- C7 amended: the `dice_notation` field of every successful `roll_dice`
result is the input notation exactly as given (lower-casing is applied
only for parsing, not to the stored field). -/
theorem roll_dice_dice_field_is_input (dn : List Char) (m : Int) (g : Gen)
    (r : DiceRoll) (g2 : Gen)
    (h : roll_dice dn m g = .ok (r, g2)) : DiceRoll.dice_notation r = dn := by
  rw [roll_dice] at h
  cases hp : parse_notation dn with
  | error e =>
    rw [hp] at h
    exact absurd h (by simp)
  | ok p =>
    obtain ⟨n, s⟩ := p
    rw [hp] at h
    dsimp only at h
    split_ifs at h with h1 h2
    rw [Except.ok.injEq, Prod.mk.injEq] at h
    rw [← h.1]

/-- C7 amended witness: the "2D6" call's result field equals "2D6". -/
theorem roll_dice_dice_field_is_input_witness :
    ∃ r g2, roll_dice "2D6".data 0 (fun _ => 0) = .ok (r, g2) ∧
      DiceRoll.dice_notation r = "2D6".data := by
  refine ⟨_, _, rfl, ?_⟩
  exact roll_dice_dice_field_is_input "2D6".data 0 (fun _ => 0) _ _ rfl

/-- C8: for an id with no matching row, the store's `get_character`
returns `none` (it does not fail), `get_character_info` fails with
precisely the not-found message for that id, and that message differs
from every message the dice roller's validation can produce. -/
theorem get_character_info_not_found_condition (st : ProcState) (db : Database)
    (character_id : Int)
    (habs : ∀ t, getTable st.files db.db_path = some t →
      ∀ c ∈ t.rows, c.id ≠ some character_id) :
    db_get_character st db character_id = none ∧
    get_character_info character_id db st = .error (notFoundMessage character_id) ∧
    (∀ t : Table, (∀ c ∈ t.rows, c.id ≠ some character_id) →
      get_character t character_id = none) ∧
    (∀ e, notFoundMessage character_id ≠ diceError e) := by
  have hget : ∀ t : Table, (∀ c ∈ t.rows, c.id ≠ some character_id) →
      get_character t character_id = none := by
    intro t ht
    rw [get_character, List.find?_eq_none]
    intro c hc
    simpa using ht c hc
  have hdb : db_get_character st db character_id = none := by
    rw [db_get_character]
    cases hg : getTable st.files db.db_path with
    | none => rfl
    | some t => exact hget t (habs t hg)
  refine ⟨hdb, ?_, hget, ?_⟩
  · rw [get_character_info, hdb]
  · intro e h
    have h1 : notFoundMessage character_id =
        'C' :: ("haracter with ID ".data ++ intRepr character_id ++
          " not found".data) := rfl
    have h2 : diceError e = 'D' :: ("ice rolling error: ".data ++ e) := rfl
    rw [h1, h2] at h
    simp at h

/-- C8 witness: id 7 in a freshly started process with no files. -/
theorem get_character_info_not_found_condition_witness :
    db_get_character initState { instance_id := 0, db_path := defaultPath } 7 = none ∧
    get_character_info 7 { instance_id := 0, db_path := defaultPath } initState =
      .error (notFoundMessage 7) ∧
    (∀ t : Table, (∀ c ∈ t.rows, c.id ≠ some 7) → get_character t 7 = none) ∧
    (∀ e, notFoundMessage 7 ≠ diceError e) :=
  get_character_info_not_found_condition initState
    { instance_id := 0, db_path := defaultPath } 7
    (fun _ ht => Option.noConfusion ht)

/-- C9 counterexample: the claim says the lifespan handle and the lazily
created resource handle reference the same store instance, but in the
reachable state after startup and a first resource read the lifespan
context holds instance 0 while `get_db` created and stored the distinct
instance 1. -/
theorem store_handles_distinct_instances_counterexample :
    (app_lifespan_startup initState).lifespan_db =
      some { instance_id := 0, db_path := defaultPath } ∧
    (get_db (app_lifespan_startup initState)).1 =
      { instance_id := 1, db_path := defaultPath } ∧
    (get_db (app_lifespan_startup initState)).2.global_db =
      some { instance_id := 1, db_path := defaultPath } ∧
    ({ instance_id := 0, db_path := defaultPath } : Database) ≠
      { instance_id := 1, db_path := defaultPath } :=
  ⟨rfl, rfl, rfl, by decide⟩

/-- C9 amended: the two acquisition paths create distinct `Database`
instances (separate connections), not one shared instance; but both
connect to the same file path "dnd_characters.db", so a character saved
through the lifespan handle is visible to a subsequent read through the
resource handle. -/
theorem store_handles_shared_file_visibility (c : Character) :
    ((app_lifespan_startup initState).lifespan_db.map Database.db_path =
      some defaultPath) ∧
    ((get_db (app_lifespan_startup initState)).1.db_path = defaultPath) ∧
    (∀ d1, (app_lifespan_startup initState).lifespan_db = some d1 →
      db_get_character
        (db_save_character (get_db (app_lifespan_startup initState)).2 d1 c).2
        (get_db (app_lifespan_startup initState)).1
        (db_save_character (get_db (app_lifespan_startup initState)).2 d1 c).1 =
      some { c with
             id := some (db_save_character
               (get_db (app_lifespan_startup initState)).2 d1 c).1 }) := by
  refine ⟨rfl, rfl, ?_⟩
  intro d1 hd1
  have : d1 = { instance_id := 0, db_path := defaultPath } :=
    (Option.some.inj hd1).symm
  subst this
  rfl

/-- C9 amended witness: a concrete character saved through the lifespan
handle is read back, with id 1, through the resource handle. -/
theorem store_handles_shared_file_visibility_witness :
    db_get_character
      (db_save_character (get_db (app_lifespan_startup initState)).2
        { instance_id := 0, db_path := defaultPath }
        { id := none, name := "Bob".data, character_class := "Fighter".data,
          level := 1, armor_class := 12, hit_points := 12, current_hp := 12,
          strength := 16, dexterity := 14, constitution := 14,
          intelligence := 12, wisdom := 13, charisma := 10 }).2
      (get_db (app_lifespan_startup initState)).1
      (db_save_character (get_db (app_lifespan_startup initState)).2
        { instance_id := 0, db_path := defaultPath }
        { id := none, name := "Bob".data, character_class := "Fighter".data,
          level := 1, armor_class := 12, hit_points := 12, current_hp := 12,
          strength := 16, dexterity := 14, constitution := 14,
          intelligence := 12, wisdom := 13, charisma := 10 }).1 =
    some { id := some 1, name := "Bob".data, character_class := "Fighter".data,
           level := 1, armor_class := 12, hit_points := 12, current_hp := 12,
           strength := 16, dexterity := 14, constitution := 14,
           intelligence := 12, wisdom := 13, charisma := 10 } :=
  (store_handles_shared_file_visibility
    { id := none, name := "Bob".data, character_class := "Fighter".data,
      level := 1, armor_class := 12, hit_points := 12, current_hp := 12,
      strength := 16, dexterity := 14, constitution := 14,
      intelligence := 12, wisdom := 13, charisma := 10 }).2.2
    { instance_id := 0, db_path := defaultPath } rfl

/-- C10: the character-sheet resource returns an ordinary string on every
path: the "Invalid character ID" text when the id does not parse as an
integer, and the "not found" text when the parsed id has no row in the
store the lazy resource handle reads. -/
theorem get_character_sheet_error_texts (st : ProcState) (character_id : List Char) :
    (pyInt character_id = none →
      (get_character_sheet st character_id).1 =
        "Invalid character ID: ".data ++ character_id) ∧
    (∀ n, pyInt character_id = some n →
      db_get_character (get_db st).2 (get_db st).1 n = none →
      (get_character_sheet st character_id).1 =
        "Character ".data ++ character_id ++ " not found".data) := by
  constructor
  · intro h
    rw [get_character_sheet, h]
  · intro n h hnone
    rw [get_character_sheet, h]
    dsimp only
    rw [hnone]

/-- C10 witness: "abc" yields the invalid-id text and "7" the not-found
text in a freshly started process. -/
theorem get_character_sheet_error_texts_witness :
    pyInt "abc".data = none ∧
    (get_character_sheet initState "abc".data).1 =
      "Invalid character ID: ".data ++ "abc".data ∧
    pyInt "7".data = some 7 ∧
    db_get_character (get_db initState).2 (get_db initState).1 7 = none ∧
    (get_character_sheet initState "7".data).1 =
      "Character ".data ++ "7".data ++ " not found".data :=
  ⟨rfl, (get_character_sheet_error_texts initState "abc".data).1 rfl, rfl, rfl,
   (get_character_sheet_error_texts initState "7".data).2 7 rfl rfl⟩

end DnD
